import Mathlib

/-!
Verification development for the demodocus web-accessibility crawler.

Each definition is a shallow embedding of a function or class of the Python
source (file and line references are given in the doc comments).  Machine
behaviour that the claims depend on — Python `set` deduplication, dictionary
write-once updates, property setters, exception propagation — is translated
explicitly.  Scores are modelled as rationals, state-data representations as
strings, and the lxml element trees of the HTML template engine as an
inductive tree type.
-/

set_option autoImplicit false

namespace Demodocus

/-! ## Comparator pipeline (demodocusfw/comparator.py) -/

/-- CompareFlag from comparator.py lines 80-85: a pair of stop bits
(`STOP_IF_TRUE`, `STOP_IF_FALSE`). `NONE` is both false, `STOP_ALL` both
true. -/
structure CompareFlag where
  stopIfTrue : Bool
  stopIfFalse : Bool
deriving DecidableEq, Repr

/-- Comparator: an object with a `match` method taking two state-data
representations (strings, see `StateData.get_full_representation`) and
returning a boolean or raising (comparator.py lines 33-47).  The `id`
field stands for the Python object identity / class name that
`Comparer.compare` interpolates into its error message; distinct pipeline
entries are distinct objects in the source. -/
structure Comparator where
  id : String
  matchFn : String → String → Except String Bool

/-- Message built by comparator.py line 126:
`"Error running comparator {}: {}".format(comparator.__class__.__name__, str(e))`. -/
def comparatorErrMsg (name e : String) : String :=
  "Error running comparator " ++ name ++ ": " ++ e

/-- Identity of the last pipeline entry (used for comparator.py line 116,
`is_last = comparator == pipeline[-1][0]`; `BaseComparator` does not
override `__eq__`, so this is object identity, modelled by `id`). -/
def lastComparatorId (pipeline : List (Comparator × CompareFlag)) : String :=
  match pipeline.getLast? with
  | some (c, _) => c.id
  | none => ""

/-- Loop body of `Comparer.compare` (comparator.py lines 115-128).  Walking
the pipeline in order: evaluate the comparator; if it raises, re-raise with
the comparator's identity; if the result is `True` and the comparator is
last or has `STOP_IF_TRUE`, return `True`; if `False` and last or
`STOP_IF_FALSE`, return `False`; otherwise continue.  Falling off the end
(possible only for an empty pipeline, since the last comparator always
stops) returns Python `None`, modelled as `Except.ok none`. -/
def compareAux (last : String) (sd1 sd2 : String) :
    List (Comparator × CompareFlag) → Except String (Option Bool)
  | [] => .ok none
  | (c, flags) :: rest =>
    match c.matchFn sd1 sd2 with
    | .error e => .error (comparatorErrMsg c.id e)
    | .ok r =>
      if r && (c.id == last || flags.stopIfTrue) then .ok (some true)
      else if !r && (c.id == last || flags.stopIfFalse) then .ok (some false)
      else compareAux last sd1 sd2 rest

/-- Comparer.compare (comparator.py lines 97-128) run on an explicit
pipeline (the source defaults to the module-level `Comparer.default_pipeline`,
which crawler.py line 53 overwrites from the configuration). -/
def Comparer.compare (pipeline : List (Comparator × CompareFlag))
    (sd1 sd2 : String) : Except String (Option Bool) :=
  compareAux (lastComparatorId pipeline) sd1 sd2 pipeline

/-- Character class of the regex `[;\s]+` used by `StrictComparator`
(comparator.py line 57); `\s` on ASCII input is space, tab, newline,
carriage return, form feed and vertical tab. -/
def isSquashedChar (ch : Char) : Bool :=
  ch == ';' || ch == ' ' || ch == '\t' || ch == '\n' ||
    ch == '\r' || ch == '\x0c' || ch == '\x0b'

/-- Result of `re.sub(r'[;\s]+', '', s)`: every squashed character removed
(replacing each maximal run by the empty string equals dropping each
character). -/
def squashString (s : String) : String :=
  String.mk (s.data.filter (fun ch => !isSquashedChar ch))

/-! ### Character-list string primitives

Python string operations used by the embedded code (`split`, `strip`,
`join`, lexicographic comparison, number formatting) are implemented
here over the character list of the string, so that every evaluation
reduces inside the kernel. -/

/-- Python whitespace (`str.strip` / `str.split()` on ASCII input). -/
def isPyWs (ch : Char) : Bool :=
  ch == ' ' || ch == '\t' || ch == '\n' || ch == '\r' || ch == '\x0c' || ch == '\x0b'

/-- Test that `pre` is a leading segment of `s`. -/
def leadsWith : List Char → List Char → Bool
  | [], _ => true
  | _ :: _, [] => false
  | a :: as, b :: bs => a == b && leadsWith as bs

/-- Splitting on a non-empty separator (`str.split(sep)`), over
character lists; the fuel is the input length plus one. -/
def splitOnLAux (sep : List Char) : Nat → List Char → List Char → List (List Char)
  | 0, _, acc => [acc.reverse]
  | _, [], acc => [acc.reverse]
  | fuel + 1, c :: rest, acc =>
    if leadsWith sep (c :: rest) then
      acc.reverse :: splitOnLAux sep fuel ((c :: rest).drop sep.length) []
    else splitOnLAux sep fuel rest (c :: acc)

/-- Python `s.split(sep)` for a non-empty separator. -/
def splitOnStr (s sep : String) : List String :=
  (splitOnLAux sep.data (s.data.length + 1) s.data []).map String.mk

/-- Splitting at every character satisfying `p`, keeping empty pieces. -/
def splitPAux (p : Char → Bool) : List Char → List Char → List (List Char)
  | [], acc => [acc.reverse]
  | c :: rest, acc =>
    if p c then acc.reverse :: splitPAux p rest []
    else splitPAux p rest (c :: acc)

/-- Python `s.split()` (split on whitespace runs, no empty pieces). -/
def splitWs (s : String) : List String :=
  ((splitPAux isPyWs s.data []).filter (fun l => !l.isEmpty)).map String.mk

/-- Python `s.strip()`. -/
def stripStr (s : String) : String :=
  String.mk (((s.data.dropWhile isPyWs).reverse.dropWhile isPyWs).reverse)

/-- Python `sep.join(l)`. -/
def joinSep (sep : String) : List String → String
  | [] => ""
  | [x] => x
  | x :: xs => x ++ sep ++ joinSep sep xs

/-- Lexicographic strict order on character lists by code point (the
Python `<` on strings). -/
def strLtL : List Char → List Char → Bool
  | [], [] => false
  | [], _ :: _ => true
  | _ :: _, [] => false
  | a :: as, b :: bs =>
    if a.val < b.val then true
    else if b.val < a.val then false
    else strLtL as bs

/-- Python `a < b` on strings. -/
def strLtB (a b : String) : Bool :=
  strLtL a.data b.data

/-- Decimal digits of a natural number (fuel-based). -/
def natToStrAux : Nat → Nat → List Char
  | 0, _ => []
  | fuel + 1, n =>
    if n < 10 then [Char.ofNat (48 + n)]
    else natToStrAux fuel (n / 10) ++ [Char.ofNat (48 + n % 10)]

/-- Decimal rendering of a natural number. -/
def natToStr (n : Nat) : String :=
  String.mk (natToStrAux (n + 1) n)

/-- StrictComparator (comparator.py lines 50-77): compares the two
representations for string equality after removing spaces and
semicolons.  Never raises. -/
def strictComparator : Comparator :=
  { id := "StrictComparator"
    matchFn := fun sd1 sd2 => .ok (squashString sd1 == squashString sd2) }

/-- Comparer.default_pipeline (comparator.py lines 91-95): a single
StrictComparator with STOP_IF_TRUE. -/
def defaultPipeline : List (Comparator × CompareFlag) :=
  [(strictComparator, ⟨true, false⟩)]

/-- StateData.__eq__ (graph/state.py lines 175-178): directly returns
`Comparer.compare(self.get_full_representation(), other.get_full_representation())`
with no exception handling, so a comparator failure propagates to the
caller of the equality test. -/
def stateDataEq (pipeline : List (Comparator × CompareFlag))
    (rep1 rep2 : String) : Except String (Option Bool) :=
  Comparer.compare pipeline rep1 rep2

/-- Truthiness of the value of `StateData.__eq__` under the default
pipeline, as used in boolean contexts such as
`Graph.find_state_by_data` (graph/graph.py line 120).  The default
pipeline never raises and never falls off the end, so the error and
`None` cases below are unreachable for it; Python would propagate an
exception and treat `None` as falsy. -/
def stateDataEqDefaultB (rep1 rep2 : String) : Bool :=
  match stateDataEq defaultPipeline rep1 rep2 with
  | .ok (some b) => b
  | _ => false

/-! ## Graph store: states, edges, insertion (demodocusfw/graph) -/

/-- State (graph/state.py lines 35-92): dense integer id, opaque state
data (modelled by its full string representation), and the per-user path
map `user_paths` (user name, path as a list of edge identifiers),
in insertion order as Python dictionaries preserve it. -/
structure StateS where
  id : Nat
  data : String
  userPaths : List (String × List Nat)
deriving DecidableEq, Repr

/-- State.set_user_path (graph/state.py lines 81-92): stores the path only
if the user has no recorded path yet (`if user.get_name() not in
self.user_paths`); later calls for the same user are ignored. -/
def StateS.setUserPath (s : StateS) (user : String) (path : List Nat) : StateS :=
  if (s.userPaths.map Prod.fst).contains user then s
  else { s with userPaths := s.userPaths ++ [(user, path)] }

/-- Lookup in the user-path dictionary. -/
def StateS.getUserPath (s : StateS) (user : String) : Option (List Nat) :=
  (s.userPaths.find? (fun p => p.1 == user)).map Prod.snd

/-- Edge identity tuple (graph/edge.py lines 55-66): `Edge.__eq__` and
`Edge.__hash__` compare `(state1, state2, element, action)`, with states
compared by id (graph/state.py lines 68-79). -/
structure EdgeT where
  state1 : Nat
  state2 : Nat
  element : String
  action : String
deriving DecidableEq, Repr

/-- Graph (graph/graph.py lines 36-47): set of states, adjacency map of
source-state id to the Python `set` of outgoing edges (modelled as a
duplicate-free list in insertion order), the start state and the
module-level `State.auto_inc` counter (graph/state.py lines 38-44)
that assigns ids at insertion. -/
structure GraphS where
  states : List StateS
  edges : List (Nat × List EdgeT)
  startState : Option Nat
  nextId : Nat
deriving Repr

/-- Empty graph, with the id counter reset (graph/graph.py lines 41-47,
`reset_state_inc=True`). -/
def GraphS.empty : GraphS := ⟨[], [], none, 0⟩

/-- Graph.find_state_by_data (graph/graph.py lines 110-122): first state
whose data compares equal to the given data through the pipeline. -/
def GraphS.findStateByData (g : GraphS) (data : String) : Option StateS :=
  g.states.find? (fun s => stateDataEqDefaultB s.data data)

/-- Graph.add_state (graph/graph.py lines 66-93): search the existing
states by pipeline equality; if none matches, create a `State` (assigning
`State.auto_inc` as id), add it to the set, make it the start state if
there is none, and return `(True, state)`; otherwise return
`(False, existing)`. -/
def GraphS.addState (g : GraphS) (data : String) : Bool × StateS × GraphS :=
  match g.findStateByData data with
  | some s => (false, s, g)
  | none =>
    let s : StateS := ⟨g.nextId, data, []⟩
    (true, s,
      { states := g.states ++ [s]
        edges := g.edges
        startState := match g.startState with
          | none => some s.id
          | some i => some i
        nextId := g.nextId + 1 })

/-- Outgoing-edge collection of a state (the `defaultdict(set)` entry,
graph/graph.py line 44). -/
def GraphS.edgesOf (g : GraphS) (sid : Nat) : List EdgeT :=
  match g.edges.find? (fun p => p.1 == sid) with
  | some (_, es) => es
  | none => []

/-- Insertion into a Python `set`: a no-op when an equal element is
already present (the old element is kept). -/
def setInsert (es : List EdgeT) (e : EdgeT) : List EdgeT :=
  if es.contains e then es else es ++ [e]

/-- Update of the adjacency map at a source id. -/
def GraphS.setEdgesOf (g : GraphS) (sid : Nat) (es : List EdgeT) : GraphS :=
  if (g.edges.map Prod.fst).contains sid then
    { g with edges := g.edges.map (fun p => if p.1 == sid then (sid, es) else p) }
  else
    { g with edges := g.edges ++ [(sid, es)] }

/-- Graph.add_edge (graph/graph.py lines 124-143): construct a fresh
`Edge(s1, s2, element, action)` and `add` it to the `set` of outgoing
edges of `s1` (`self.edges[s1.id].add(edge)`); the freshly constructed
edge is returned whether or not the set already held an equal edge. -/
def GraphS.addEdge (g : GraphS) (s1 s2 : Nat) (element action : String) :
    EdgeT × GraphS :=
  let e : EdgeT := ⟨s1, s2, element, action⟩
  (e, g.setEdgesOf s1 (setInsert (g.edgesOf s1) e))

/-! ## EdgeMetrics and its monotone setters
(graph/edge.py lines 123-222, web/accessibility/edge.py lines 35-91) -/

/-- AccessibilityEdgeMetrics: the base EdgeMetrics fields (graph/edge.py
lines 139-150) plus the extension fields nav_dist, contrast_ratio and
size (web/accessibility/edge.py lines 42-46).  All metric fields start
as Python `None`, modelled by `Option`.  The `build_data` slot carries
only the `is_data_captured` flag needed by the claims. -/
structure AccEdgeMetrics where
  ability_score : Option ℚ := none
  pcv_score : Option ℚ := none
  nav_score : Option ℚ := none
  act_score : Option ℚ := none
  act_time : Option ℚ := none
  nav_dist : Option ℚ := none
  contrast_ratio : Option ℚ := none
  size : Option (Int × Int) := none
  buildCaptured : Option Bool := none
deriving DecidableEq, Repr

/-- Setter of `ability_score` (graph/edge.py lines 163-166): overwrite
only when unset or strictly greater. -/
def AccEdgeMetrics.setAbility (m : AccEdgeMetrics) (v : ℚ) : AccEdgeMetrics :=
  match m.ability_score with
  | none => { m with ability_score := some v }
  | some o => if v > o then { m with ability_score := some v } else m

/-- Setter of `pcv_score` (graph/edge.py lines 172-175). -/
def AccEdgeMetrics.setPcv (m : AccEdgeMetrics) (v : ℚ) : AccEdgeMetrics :=
  match m.pcv_score with
  | none => { m with pcv_score := some v }
  | some o => if v > o then { m with pcv_score := some v } else m

/-- Setter of `nav_score` (graph/edge.py lines 181-184). -/
def AccEdgeMetrics.setNav (m : AccEdgeMetrics) (v : ℚ) : AccEdgeMetrics :=
  match m.nav_score with
  | none => { m with nav_score := some v }
  | some o => if v > o then { m with nav_score := some v } else m

/-- Setter of `act_score` (graph/edge.py lines 190-193). -/
def AccEdgeMetrics.setAct (m : AccEdgeMetrics) (v : ℚ) : AccEdgeMetrics :=
  match m.act_score with
  | none => { m with act_score := some v }
  | some o => if v > o then { m with act_score := some v } else m

/-- Setter of `act_time` (graph/edge.py lines 199-202): overwrite only
when unset or strictly smaller (times are better when lower). -/
def AccEdgeMetrics.setActTime (m : AccEdgeMetrics) (v : ℚ) : AccEdgeMetrics :=
  match m.act_time with
  | none => { m with act_time := some v }
  | some o => if v < o then { m with act_time := some v } else m

/-- Setter of `nav_dist` (web/accessibility/edge.py lines 52-55):
overwrite only when unset or strictly smaller. -/
def AccEdgeMetrics.setNavDist (m : AccEdgeMetrics) (v : ℚ) : AccEdgeMetrics :=
  match m.nav_dist with
  | none => { m with nav_dist := some v }
  | some o => if v < o then { m with nav_dist := some v } else m

/-- Setter of `contrast_ratio` (web/accessibility/edge.py lines 61-67):
after a type check that only logs a warning, the stored value is
overwritten unconditionally. -/
def AccEdgeMetrics.setContrast (m : AccEdgeMetrics) (v : ℚ) : AccEdgeMetrics :=
  { m with contrast_ratio := some v }

/-- Setter of `size` (web/accessibility/edge.py lines 73-78): after a
type check that only logs a warning, the stored value is overwritten
unconditionally. -/
def AccEdgeMetrics.setSize (m : AccEdgeMetrics) (v : Int × Int) : AccEdgeMetrics :=
  { m with size := some v }

/-- Per-edge user-metrics dictionary (graph/edge.py line 40). -/
structure EdgeM where
  userMetrics : List (String × AccEdgeMetrics) := []
deriving DecidableEq, Repr

/-- Edge.add_data_for_user (graph/edge.py lines 68-83): store the
metrics object if the user has none yet; otherwise replace the whole
stored object exactly when the new `ability_score` is strictly greater
than the existing one.  Comparing a Python `None` score with `>` raises
`TypeError`, modelled by the error case. -/
def EdgeM.addDataForUser (e : EdgeM) (user : String) (em : AccEdgeMetrics) :
    Except String EdgeM :=
  match e.userMetrics.find? (fun p => p.1 == user) with
  | none => .ok { userMetrics := e.userMetrics ++ [(user, em)] }
  | some (_, old) =>
    match em.ability_score, old.ability_score with
    | some a, some b =>
      if a > b then
        .ok { userMetrics :=
                e.userMetrics.map (fun p => if p.1 == user then (user, em) else p) }
      else .ok e
    | _, _ => .error "TypeError: unorderable comparison with None"

/-- Membership test matching `Edge.supports_user` (graph/edge.py
lines 85-95). -/
def EdgeM.supportsUser (e : EdgeM) (user : String) : Bool :=
  (e.userMetrics.map Prod.fst).contains user

/-! ## Simulated re-crawl edge handling
(access.py lines 282-311, controller/controller.py lines 198-222) -/

/-- Log message issued by access.py lines 302-304 when the build data of
an edge was never captured. -/
def uncapturedLogMsg : String :=
  "build_data has not been captured. Cannot accurately simulate performing the action on the element"

/-- Access.simulate_action_on_element (access.py lines 282-311) for a
given crawl-user score: create fresh edge metrics seeded with the build
user's `build_data`; if `is_data_captured` is false, log an error and
continue; compute the user's score and store it through the
`ability_score` setter; return the log output and the metrics.  The
score computation itself (user.py) is passed in as a value since it does
not depend on the captured flag. -/
def simulateActionOnElement (score : ℚ) (buildCaptured : Bool) :
    List String × AccEdgeMetrics :=
  let em : AccEdgeMetrics := { buildCaptured := some buildCaptured }
  let logs := if !buildCaptured then [uncapturedLogMsg] else []
  (logs, em.setAbility score)

/-- One iteration of the edge loop of Controller.crawl_graph
(controller/controller.py lines 203-213): simulate the action using the
build user's data, and if the resulting ability score is positive attach
the metrics to the edge for the crawl user via `add_data_for_user`.
Returns the log output and the possibly updated edge. -/
def crawlGraphEdgeStep (user : String) (score : ℚ) (e : EdgeM)
    (buildCaptured : Bool) : List String × Except String EdgeM :=
  let sim := simulateActionOnElement score buildCaptured
  let em := sim.2
  match em.ability_score with
  | some a =>
    if a > 0 then (sim.1, e.addDataForUser user em) else (sim.1, .ok e)
  | none => (sim.1, .error "TypeError: unorderable comparison with None")

/-! ## UserModel scoring (demodocusfw/user.py) -/

/-- UserAbility as consumed by `UserModel.score`: a class name (used by
`UserAbility.__lt__`, ability.py lines 91-92, when Python compares
tuples containing abilities), the set of claimed actions, and the three
scoring functions.  Perceive and navigate scores of the shipped
abilities do not depend on the action, the act score may. -/
structure AbilityS where
  name : String
  actions : List String
  scorePerceive : ℚ
  scoreNavigate : ℚ
  scoreAct : String → ℚ

/-- UserModel (user.py lines 90-104): name plus abilities; the user's
action set is the union of the abilities' action sets. -/
structure UserModelS where
  name : String
  abilities : List AbilityS

/-- Union of the abilities' action sets (user.py lines 102-104). -/
def UserModelS.userActions (u : UserModelS) : List String :=
  u.abilities.foldl (fun acc a => acc ++ a.actions) []

/-- Python `>` on a pair (score, ability): lexicographic, with abilities
ordered by class name (ability.py lines 91-92). -/
def lexGt2 (x best : ℚ × String) : Bool :=
  x.1 > best.1 || (x.1 == best.1 && strLtB best.2 x.2)

/-- Python `max` over a list of (score, ability) pairs: keeps the first
element and replaces it whenever a later element compares strictly
greater; raises on an empty list. -/
def listMax2 (l : List (ℚ × String)) : Option (ℚ × String) :=
  match l with
  | [] => none
  | h :: t => some (t.foldl (fun best x => if lexGt2 x best then x else best) h)

/-- Python `<` on a pair (act score, ability), used by
`sorted(..., reverse=True)` in user.py lines 331-334. -/
def lexLtPair (x y : ℚ × AbilityS) : Bool :=
  x.1 < y.1 || (x.1 == y.1 && strLtB x.2.name y.2.name)

/-- Stable descending sort of (act score, ability) pairs, as produced by
`sorted(..., reverse=True)` (user.py lines 331-334). -/
def sortPairsDesc (l : List (ℚ × AbilityS)) : List (ℚ × AbilityS) :=
  let rec insert (x : ℚ × AbilityS) :
      List (ℚ × AbilityS) → List (ℚ × AbilityS)
    | [] => [x]
    | y :: ys => if lexLtPair y x then x :: y :: ys else y :: insert x ys
  l.foldl (fun acc x => insert x acc) []

/-- Python `>` on the 4-tuple (nav_act, ability, nav, act) used by
`max(results)` in user.py line 346. -/
def lexGt4 (x best : ℚ × String × ℚ × ℚ) : Bool :=
  x.1 > best.1 ||
    (x.1 == best.1 &&
      (strLtB best.2.1 x.2.1 ||
        (x.2.1 == best.2.1 &&
          (x.2.2.1 > best.2.2.1 ||
            (x.2.2.1 == best.2.2.1 && x.2.2.2 > best.2.2.2)))))

/-- Value returned by UserModel.score_navigate_act: the documented
4-tuple `(score, ability, nav_score, act_score)` (user.py lines 315-319),
or the bare pair `(0.0, None)` of user.py line 336 issued when no
ability can perform the action. -/
inductive NavActResult where
  | quad (combined : ℚ) (ability : String) (nav act : ℚ)
  | pair (score : ℚ) (ability : Option String)
deriving DecidableEq, Repr

/-- UserModel.score_navigate_act for a single action (user.py
lines 305-353): sort the abilities by act score descending; if the best
act score is 0.0 return the pair `(0.0, None)`; otherwise collect
`(nav*act, ability, nav, act)` for every ability with a positive act
score and return the maximum.  An action unknown to the interface
raises ValueError; `max` and indexing raise on empty input. -/
def UserModelS.scoreNavigateAct (u : UserModelS)
    (interfaceActions : List String) (action : String) :
    Except String NavActResult :=
  if interfaceActions.contains action then
    let actable := sortPairsDesc (u.abilities.map (fun a => (a.scoreAct action, a)))
    match actable with
    | [] => .error "IndexError: list index out of range"
    | (s0, _) :: _ =>
      if s0 == 0 then .ok (.pair 0 none)
      else
        let results := actable.filterMap (fun p =>
          if p.1 > 0 then
            some (p.2.scoreNavigate * p.1, p.2.name, p.2.scoreNavigate, p.1)
          else none)
        match results with
        | [] => .error "ValueError: max() arg is an empty sequence"
        | h :: t =>
          let m := t.foldl (fun best x => if lexGt4 x best then x else best) h
          .ok (.quad m.1 m.2.1 m.2.2.1 m.2.2.2)
  else
    .error "ValueError: UserModel::score_navigate_act: action is not an action on this interface."

/-- Score-flag combination passed to `UserModel.score` (user.py
lines 47-68): membership of PCV, NAV and ACT. -/
structure ScoreFlags where
  pcv : Bool
  nav : Bool
  act : Bool
deriving DecidableEq, Repr

/-- UserModel.score for a single action (user.py lines 146-188).  If ACT
is requested and no ability of the user claims the action, return 0
immediately.  If PCV is requested, take the best perceive score and
return 0 when it is 0.  If both NAV and ACT are requested, call
score_navigate_act and unpack its result into four variables — the pair
return of user.py line 336 makes this unpacking raise ValueError.
Otherwise compute a single axis (best navigate score, or best act score
for an interface action), defaulting `nav_act` to 1 when neither axis is
requested.  The writes into `edge_metrics` go through the monotone
setters and do not affect the returned value, so they are omitted
here. -/
def UserModelS.score (u : UserModelS) (flags : ScoreFlags)
    (interfaceActions : List String) (action : String) : Except String ℚ :=
  if flags.act && !(u.userActions.contains action) then .ok 0
  else
    let pcvE : Except String ℚ :=
      if flags.pcv then
        match listMax2 (u.abilities.map (fun a => (a.scorePerceive, a.name))) with
        | none => .error "ValueError: max() arg is an empty sequence"
        | some (s, _) => .ok s
      else .ok 1
    match pcvE with
    | .error e => .error e
    | .ok pcv =>
      if flags.pcv && pcv == 0 then .ok 0
      else if flags.nav && flags.act then
        match u.scoreNavigateAct interfaceActions action with
        | .error e => .error e
        | .ok (.quad c _ _ _) => .ok (pcv * c)
        | .ok (.pair _ _) =>
          .error "ValueError: not enough values to unpack (expected 4, got 2)"
      else if flags.nav then
        match listMax2 (u.abilities.map (fun a => (a.scoreNavigate, a.name))) with
        | none => .error "ValueError: max() arg is an empty sequence"
        | some (s, _) => .ok (pcv * s)
      else if flags.act then
        if interfaceActions.contains action then
          match listMax2 (u.abilities.map (fun a => (a.scoreAct action, a.name))) with
          | none => .error "ValueError: max() arg is an empty sequence"
          | some (s, _) => .ok (pcv * s)
        else
          .error "ValueError: UserModel::score_act: action is not an action on this interface."
      else .ok (pcv * 1)

/-! ## HTML template engine: tree model (demodocusfw/web/template.py)

The lxml element trees handled by `HtmlTemplate` are modelled by the
inductive type `HElem`: tag, attribute list in document order, text
content (`None` or a string) and the child list.  `etree.tostring`
equality corresponds to structural equality of `HElem` (tail text, which
neither `_match_trees` nor `_get_merged_tree` inspects, is not
modelled). -/

/-- An lxml HTML element. -/
inductive HElem where
  | mk (tag : String) (attrs : List (String × String)) (text : Option String)
      (children : List HElem)
deriving Repr

mutual

/-- Structural (serialization) equality of elements, the model of
`etree.tostring(a) == etree.tostring(b)`. -/
def HElem.beq : HElem → HElem → Bool
  | .mk t1 a1 x1 c1, .mk t2 a2 x2 c2 =>
    t1 == t2 && a1 == a2 && x1 == x2 && HElem.beqL c1 c2

/-- Structural equality of element lists. -/
def HElem.beqL : List HElem → List HElem → Bool
  | [], [] => true
  | x :: xs, y :: ys => HElem.beq x y && HElem.beqL xs ys
  | _, _ => false

end

instance : BEq HElem := ⟨HElem.beq⟩

/-- Tag of an element. -/
def HElem.tag : HElem → String
  | .mk t _ _ _ => t

/-- Attribute list of an element, in document order. -/
def HElem.attrs : HElem → List (String × String)
  | .mk _ a _ _ => a

/-- Text content of an element (`None` modelled as `none`). -/
def HElem.text : HElem → Option String
  | .mk _ _ t _ => t

/-- Child list of an element. -/
def HElem.children : HElem → List HElem
  | .mk _ _ _ c => c

/-- Attribute lookup (`el.attrib[key]` / `key in el.attrib`). -/
def HElem.attr (e : HElem) (k : String) : Option String :=
  (e.attrs.find? (fun p => p.1 == k)).map Prod.snd

/-- Attribute membership (`key in el.attrib`). -/
def HElem.hasAttr (e : HElem) (k : String) : Bool :=
  (e.attr k).isSome

/-- Assignment `attrs[k] = v` on an attribute list: replace the value in
place when the key exists, otherwise append. -/
def setAttrL (attrs : List (String × String)) (k v : String) :
    List (String × String) :=
  if (attrs.map Prod.fst).contains k then
    attrs.map (fun p => if p.1 == k then (k, v) else p)
  else attrs ++ [(k, v)]

/-- Assignment `el.attrib[k] = v` on an element. -/
def HElem.setAttr (e : HElem) (k v : String) : HElem :=
  .mk e.tag (setAttrL e.attrs k v) e.text e.children

mutual

/-- Number of elements in a tree (used to compute recursion-depth fuel;
the recursion depth of the template walks is bounded by the element
nesting depth, which is below this count). -/
def esize : HElem → Nat
  | .mk _ _ _ cs => 1 + esizeL cs

/-- Total size of a list of trees. -/
def esizeL : List HElem → Nat
  | [] => 0
  | c :: cs => esize c + esizeL cs

end

/-- SPECIAL_ATTRIBUTES (template.py line 56). -/
def specialAttributes : List String :=
  ["unstable_attributes", "unstable_text", "unstable_element"]

/-- ATTRIBUTES_TO_MATCH (template.py line 63): only `demod_reachable` is
compared during matching; `none` would mean compare all attributes. -/
def attributesToMatch : Option (List String) := some ["demod_reachable"]

/-- Set union on string lists (first operand's order, then new
elements). -/
def unionS (a b : List String) : List String :=
  a ++ b.filter (fun x => !a.contains x)

/-- Set intersection on string lists. -/
def interS (a b : List String) : List String :=
  a.filter (fun x => b.contains x)

/-- Set difference on string lists. -/
def diffS (a b : List String) : List String :=
  a.filter (fun x => !b.contains x)

/-- Set equality of string lists. -/
def listSetEq (a b : List String) : Bool :=
  a.all (fun x => b.contains x) && b.all (fun x => a.contains x)

/-- Insertion of a string into a sorted list. -/
def insortStr (x : String) : List String → List String
  | [] => [x]
  | y :: ys => if !strLtB y x then x :: y :: ys else y :: insortStr x ys

/-- Python `sorted` on a collection of strings (duplicates kept). -/
def sortStr (l : List String) : List String :=
  l.foldr insortStr []

/-- Attribute keys of an element (`set(el.attrib)`); lxml attribute keys
are unique. -/
def attrKeys (e : HElem) : List String :=
  e.attrs.map Prod.fst

/-- Class list of an element (`el.classes`, backed by the `class`
attribute split on whitespace). -/
def classesOf (e : HElem) : List String :=
  splitWs ((e.attr "class").getD "")

/-- The `_get_unstable_attributes_for_element` helper (template.py
lines 884-887): the `unstable_attributes` attribute split on single
spaces, or the empty set. -/
def unstableAttrsOf (e : HElem) : List String :=
  match e.attr "unstable_attributes" with
  | some s => splitOnStr s " "
  | none => []

/-- Reachability flag test used at template.py lines 366-367 and 469 and
482: the element carries `demod_reachable="false"`. -/
def reachFalse (e : HElem) : Bool :=
  e.attr "demod_reachable" == some "false"

/-- Test for any of the three instability markers (template.py
lines 732-734 and 741-743). -/
def anyUnstableMark (e : HElem) : Bool :=
  e.hasAttr "unstable_element" || e.hasAttr "unstable_text" ||
    e.hasAttr "unstable_attributes"

/-! ### The match walk (template.py `_match_trees`, lines 293-494)

The walk is written with an explicit fuel argument standing for the
recursion depth; every entry of `_match_trees` on a pair of child
elements decreases the fuel by one, and the fuel chosen at top level
(`esize` of both trees) strictly exceeds the element nesting depth, so
the fuel-exhaustion branches are unreachable.  The diagnostic
`explanation` dictionary of the source, which only collects messages,
is omitted.  The result is `none` when no difference was found, and
`some (d1, d2)` for the first pair of disagreeing nodes otherwise
(`d2 = none` corresponds to the Python `return element, None`). -/

/-- The `match_el_to_list_and_remove` helper of the match walk
(template.py lines 379-394): walk the unmatched-children backlog
backwards; when a backlog entry matches `el`, return the backlog with
that entry removed. -/
def matchElToListF (mt : HElem → HElem → Option (Option HElem × Option HElem))
    (el : HElem) (els : List HElem) : Option (List HElem) :=
  let rec go : List HElem → Option (List HElem)
    | [] => none
    | x :: rest =>
      if (mt x el).isNone then some rest
      else (go rest).map (fun r => x :: r)
  (go els.reverse).map List.reverse

/-- The two-cursor child loop of the match walk (template.py
lines 396-461).  State: the remaining child lists, the cursor and
previous-cursor indices, the full list lengths, and both backlogs.
Returns the first disagreeing pair, or the loop state at exhaustion of
either list.  The `steps` fuel equals the total number of children plus
one at the call site; every iteration consumes one child, so the fuel
never runs out. -/
def matchWalkF (mt : HElem → HElem → Option (Option HElem × Option HElem)) :
    Nat → List HElem → List HElem → Nat → Nat → Nat → Nat → Nat → Nat →
    List HElem → List HElem →
    Except (Option HElem × Option HElem)
      (List HElem × List HElem × List HElem × List HElem)
  | _, [], r2, _, _, _, _, _, _, um1, um2 => .ok ([], r2, um1, um2)
  | _, r1, [], _, _, _, _, _, _, um1, um2 => .ok (r1, [], um1, um2)
  | 0, r1, r2, _, _, _, _, _, _, um1, um2 => .ok (r1, r2, um1, um2)
  | steps + 1, c1 :: r1, c2 :: r2, idx1, idx2, prev1, prev2, len1, len2, um1, um2 =>
    if (mt c1 c2).isNone then
      matchWalkF mt steps r1 r2 (idx1 + 1) (idx2 + 1) idx1 idx2 len1 len2 um1 um2
    else
      match (if idx2 > prev2 then matchElToListF mt c2 um1 else none) with
      | some um1x =>
        matchWalkF mt steps (c1 :: r1) r2 idx1 (idx2 + 1) idx1 idx2 len1 len2 um1x um2
      | none =>
        match (if idx1 > prev1 then matchElToListF mt c1 um2 else none) with
        | some um2x =>
          matchWalkF mt steps r1 (c2 :: r2) (idx1 + 1) idx2 idx1 idx2 len1 len2 um1 um2x
        | none =>
          let c1u := c1.hasAttr "unstable_element"
          let c2u := c2.hasAttr "unstable_element"
          if idx1 < idx2 && c1u then
            matchWalkF mt steps r1 (c2 :: r2) (idx1 + 1) idx2 idx1 idx2 len1 len2
              (um1 ++ [c1]) um2
          else if idx1 > idx2 && c2u then
            matchWalkF mt steps (c1 :: r1) r2 idx1 (idx2 + 1) idx1 idx2 len1 len2
              um1 (um2 ++ [c2])
          else if len1 < len2 && c2u then
            matchWalkF mt steps (c1 :: r1) r2 idx1 (idx2 + 1) idx1 idx2 len1 len2
              um1 (um2 ++ [c2])
          else if c1u then
            matchWalkF mt steps r1 (c2 :: r2) (idx1 + 1) idx2 idx1 idx2 len1 len2
              (um1 ++ [c1]) um2
          else if c2u then
            matchWalkF mt steps (c1 :: r1) r2 idx1 (idx2 + 1) idx1 idx2 len1 len2
              um1 (um2 ++ [c2])
          else .error (some c1, some c2)

/-- The leftover-children loops of the match walk (template.py
lines 465-490): each remaining child passes if it is unreachable, or
matches (and removes) an entry of the opposite backlog, or is marked
`unstable_element`; otherwise it is the disagreement. -/
def matchDrainF (mt : HElem → HElem → Option (Option HElem × Option HElem)) :
    List HElem → List HElem → Option HElem × List HElem
  | [], um => (none, um)
  | c :: rest, um =>
    if reachFalse c then matchDrainF mt rest um
    else
      match matchElToListF mt c um with
      | some umx => matchDrainF mt rest umx
      | none =>
        if c.hasAttr "unstable_element" then matchDrainF mt rest um
        else (some c, um)

/-- HtmlTemplate._match_trees (template.py lines 293-494). -/
def matchTrees : Nat → HElem → HElem → Option (Option HElem × Option HElem)
  | 0, _, _ => some (none, none)
  | n + 1, l1, l2 =>
    if l1 == l2 then none
    else if l1.tag != l2.tag then some (some l1, some l2)
    else
      let checksFail : Bool :=
        if l1.tag == "html" || l1.tag == "body" then false
        else
          let unstable := unionS (unstableAttrsOf l1) (unstableAttrsOf l2)
          let a1 := diffS (attrKeys l1) specialAttributes
          let a2 := diffS (attrKeys l2) specialAttributes
          let allAttrs := match attributesToMatch with
            | some m => interS (unionS a1 a2) m
            | none => unionS a1 a2
          let attrFail := (diffS (diffS allAttrs unstable) ["class"]).any (fun k =>
            (a1.contains k != a2.contains k) || (l1.attr k != l2.attr k))
          let classFail :=
            (match attributesToMatch with
             | none => true
             | some m => m.contains "class") &&
            !unstable.contains "class" &&
            ((classesOf l1).any (fun c => !(classesOf l2).contains c) ||
             (classesOf l2).any (fun c => !(classesOf l1).contains c))
          let unstableText := l1.hasAttr "unstable_text" || l2.hasAttr "unstable_text"
          let textFail := !unstableText && l1.text != l2.text
          attrFail || classFail || textFail
      if checksFail then some (some l1, some l2)
      else if reachFalse l1 || reachFalse l2 then none
      else
        let cs1 := l1.children
        let cs2 := l2.children
        match matchWalkF (matchTrees n) (cs1.length + cs2.length + 1) cs1 cs2
            0 0 0 0 cs1.length cs2.length [] [] with
        | .error d => some d
        | .ok (rem1, rem2, um1, um2) =>
          match matchDrainF (matchTrees n) rem1 um2 with
          | (some c, _) => some (some c, none)
          | (none, _) =>
            match matchDrainF (matchTrees n) rem2 um1 with
            | (some c, _) => some (some c, none)
            | (none, _) => none

/-- The match walk at adequate fuel. -/
def matchTreesTop (l1 l2 : HElem) : Option (Option HElem × Option HElem) :=
  matchTrees (esize l1 + esize l2 + 1) l1 l2

/-! ### Element correspondence
(template.py `_helper_initial_element_compare`, lines 536-615)

The correspondence test performs global uniqueness queries
(`lel1.body.getparent().find_class(c)` and the absolute xpaths
`//*[@att]`, `//*[@att="v"]`), which search the whole tree the element
currently belongs to.  The embedding threads those root trees as
explicit `root1`/`root2` arguments; during backlog matching inside the
children merge the first root is the partially built result element, as
in the source where skipped copies are attached to `el_result`. -/

/-- Sum of a per-element count over a list of subtrees. -/
def sumOverF (f : HElem → Nat) : List HElem → Nat
  | [] => 0
  | c :: cs => f c + sumOverF f cs

/-- Fueled count of elements in the subtree of `e` (including `e`)
carrying class `c` (`find_class`, descendant-or-self); the fuel bounds
the nesting depth. -/
def countClassF : Nat → HElem → String → Nat
  | 0, _, _ => 0
  | n + 1, e, c =>
    (if (classesOf e).contains c then 1 else 0) +
      sumOverF (fun x => countClassF n x c) e.children

/-- Class count at adequate fuel. -/
def countClass (e : HElem) (c : String) : Nat :=
  countClassF (esize e + 1) e c

/-- Fueled count of elements in the subtree of `e` (including `e`)
carrying attribute `att` (the query `//*[@att]` evaluated from the
root). -/
def countAttrF : Nat → HElem → String → Nat
  | 0, _, _ => 0
  | n + 1, e, att =>
    (if e.hasAttr att then 1 else 0) +
      sumOverF (fun x => countAttrF n x att) e.children

/-- Attribute-presence count at adequate fuel. -/
def countAttr (e : HElem) (att : String) : Nat :=
  countAttrF (esize e + 1) e att

/-- Fueled count of elements in the subtree of `e` with `att` equal to
`v` (the query `//*[@att="v"]`). -/
def countAttrValF : Nat → HElem → String → String → Nat
  | 0, _, _, _ => 0
  | n + 1, e, att, v =>
    (if e.attr att == some v then 1 else 0) +
      sumOverF (fun x => countAttrValF n x att v) e.children

/-- Attribute-value count at adequate fuel. -/
def countAttrVal (e : HElem) (att v : String) : Nat :=
  countAttrValF (esize e + 1) e att v

/-- Scan of the children of `parent` for the first `body` in document
order, descending through `bp` into earlier subtrees first. -/
def bodyScanF (bp : HElem → Option HElem) (parent : HElem) :
    List HElem → Option HElem
  | [] => none
  | c :: cs =>
    if c.tag == "body" then some parent
    else
      match bp c with
      | some p => some p
      | none => bodyScanF bp parent cs

/-- Fueled search for the parent of the first `body` element in
document order below `e` (used for `el.body.getparent()`). -/
def bodyParentF : Nat → HElem → Option HElem
  | 0, _ => none
  | n + 1, e => bodyScanF (bodyParentF n) e e.children

/-- Body-parent search at adequate fuel. -/
def bodyParentIn (e : HElem) : Option HElem :=
  bodyParentF (esize e + 1) e

/-- The guarded class-uniqueness test of template.py lines 576-583:
`len(root.body.getparent().find_class(c)) == 1`, where a missing `body`
or a `body` at the root (whose `getparent()` is `None`) raises and the
`except` clause skips the class.  `root` is the root of the tree the
element belongs to, so `body.getparent()` is the root itself when the
root is an `html` element containing the body. -/
def classUniq (root : HElem) (c : String) : Bool :=
  if root.tag == "body" then false
  else
    match bodyParentIn root with
    | some p => countClass p c == 1
    | none => false

/-- HtmlTemplate._helper_initial_element_compare (template.py
lines 536-615): 1 when the elements correspond, -1 when they are
surely different, 0 for no decision.  Checks in source order: tag
mismatch; html/body; shared id; a shared class globally unique in both
trees; a shared attribute (without a namespace colon) globally unique
in both trees, or a shared attribute/value pair globally unique in both
trees; both elements have classes but none in common. -/
def helperInitialCompare (root1 root2 l1 l2 : HElem) : Int :=
  if l1.tag != l2.tag then -1
  else if l1.tag == "html" || l1.tag == "body" then 1
  else if (match l1.attr "id", l2.attr "id" with
           | some a, some b => a == b
           | _, _ => false) then 1
  else
    let shared := interS (classesOf l1) (classesOf l2)
    if shared.any (fun c => classUniq root1 c && classUniq root2 c) then 1
    else if (interS (attrKeys l1) (attrKeys l2)).any (fun att =>
        if att.data.contains ':' then false
        else if countAttr root1 att == 1 && countAttr root2 att == 1 then true
        else
          l1.attr att == l2.attr att &&
          countAttrVal root1 att ((l1.attr att).getD "") == 1 &&
          countAttrVal root2 att ((l1.attr att).getD "") == 1) then 1
    else if (classesOf l1).length > 0 && (classesOf l2).length > 0 &&
        shared.isEmpty then -1
    else 0

/-! ### Attribute, text and children merge
(template.py `_get_merged_tree` and helpers, lines 496-892) -/

/-- HtmlTemplate._helper_combine_attributes (template.py lines 617-674):
produce the attribute list of the merged element.  Classes are unioned
and marked unstable when they differ (unless overwriting a non-unstable
class attribute, where the new classes win); every other non-special
attribute key is compared as a `||`-separated value set, with differing
sets either unioned and marked unstable or overwritten; the accumulated
unstable-attribute names are written sorted into `unstable_attributes`,
and the `unstable_element` / `unstable_text` markers of either side are
propagated.  Python iterates attribute-key sets in unspecified order;
the embedding iterates keys sorted, which fixes one serialization among
those Python may produce and affects no comparison performed by the
template (matching ignores these attributes).  Assigning an empty class
list is modelled as leaving the `class` attribute absent. -/
def combineAttributes (l1 l2 : HElem) (ow : Bool) : List (String × String) :=
  let u1 := unstableAttrsOf l1
  let u2 := unstableAttrsOf l2
  let cls1 := classesOf l1
  let cls2 := classesOf l2
  let classPart : List (String × String) × Bool :=
    if !listSetEq cls1 cls2 then
      if !ow || u1.contains "class" || u2.contains "class" then
        ([("class", joinSep " " (sortStr (unionS cls1 cls2)))], true)
      else
        (if cls2.isEmpty then [] else
          [("class", joinSep " " cls2)], false)
    else
      (if cls2.isEmpty then [] else
        [("class", joinSep " " cls2)], false)
  let keys := sortStr (diffS (diffS (unionS (attrKeys l1) (attrKeys l2))
    specialAttributes) ["class"])
  let step : List ((String × String) × Bool) := keys.map (fun k =>
    let v1 := match l1.attr k with | some s => splitOnStr s "||" | none => []
    let v2 := match l2.attr k with | some s => splitOnStr s "||" | none => []
    if !listSetEq v1 v2 then
      if !ow || u1.contains k || u2.contains k then
        ((k, joinSep "||" (sortStr (unionS v1 v2).dedup)), true)
      else
        ((k, joinSep "||" v2), false)
    else
      ((k, (l2.attr k).getD ""), false))
  let unstable := unionS (unionS u1 u2)
    ((if classPart.2 then ["class"] else []) ++
      step.filterMap (fun p => if p.2 then some p.1.1 else none))
  classPart.1 ++ step.map Prod.fst ++
    (if unstable.isEmpty then [] else
      [("unstable_attributes", joinSep " " (sortStr unstable.dedup))]) ++
    (if l1.hasAttr "unstable_element" || l2.hasAttr "unstable_element" then
      [("unstable_element", "true")] else []) ++
    (if l1.hasAttr "unstable_text" || l2.hasAttr "unstable_text" then
      [("unstable_text", "true")] else [])

/-- HtmlTemplate._helper_combine_text (template.py lines 676-703):
compare the texts as `||`-separated value sets, treating `None` and
whitespace-only text as the empty set; differing sets are unioned,
sorted and marked unstable, unless overwrite mode takes the new text.
Returns the merged text and whether `unstable_text` was set here. -/
def combineText (l1 l2 : HElem) (ow : Bool) : Option String × Bool :=
  let u1 := l1.hasAttr "unstable_text"
  let u2 := l2.hasAttr "unstable_text"
  let v1 := match l1.text with
    | some s => if stripStr s ≠ "" then splitOnStr s "||" else []
    | none => []
  let v2 := match l2.text with
    | some s => if stripStr s ≠ "" then splitOnStr s "||" else []
    | none => []
  if !listSetEq v1 v2 then
    if !ow || u1 || u2 then
      (some (joinSep "||" (sortStr (unionS v1 v2).dedup)), true)
    else (l2.text, false)
  else (l2.text, false)

/-- Removal of the first structurally equal occurrence from a child
list (`el_result.remove(child)`). -/
def removeFirst : List HElem → HElem → List HElem
  | [], _ => []
  | x :: xs, old => if x == old then xs else x :: removeFirst xs old

/-- Replacement of the first structurally equal occurrence
(`el_result.insert(el_result.index(old), new)` followed by
`el_result.remove(old)`). -/
def replaceFirst : List HElem → HElem → HElem → List HElem
  | [], _, _ => []
  | x :: xs, old, new => if x == old then new :: xs else x :: replaceFirst xs old new

/-- The `match_el_to_list_and_remove` helper of the children merge
(template.py lines 728-754): walk the backlog backwards; a backlog
entry may merge with `el` only when at least one of the two carries an
instability marker; on success return the matched entry, the merged
result and the backlog with the entry removed.  `mgc` is the merge at
the current fuel, applied to the pair of roots the two elements belong
to: the backlog entries are attached to the partially built result
element, `el` to its original tree. -/
def mergeElToList (mgc : HElem → HElem → HElem → HElem → Option HElem)
    (partialRoot rootEl el : HElem) (els : List HElem) :
    Option (HElem × HElem × List HElem) :=
  let elU := anyUnstableMark el
  let rec go : List HElem → Option (HElem × HElem × List HElem)
    | [] => none
    | x :: rest =>
      if elU || anyUnstableMark x then
        match mgc partialRoot rootEl x el with
        | some r => some (x, r, rest)
        | none => (go rest).map (fun q => (q.1, q.2.1, x :: q.2.2))
      else (go rest).map (fun q => (q.1, q.2.1, x :: q.2.2))
  (go els.reverse).map (fun q => (q.1, q.2.1, q.2.2.reverse))

/-- The two-cursor child loop of the children merge (template.py
lines 756-840).  State: result children built so far (`acc`), remaining
child lists, cursors, previous cursors, full lengths and both backlogs.
`partialMk acc` rebuilds the partially constructed result element that
serves as the root of backlog entries.  Returns the loop state at
exhaustion of either list. -/
def mergeWalkF (mgc : HElem → HElem → HElem → HElem → Option HElem)
    (root1 root2 : HElem) (partialMk : List HElem → HElem) (ow : Bool) :
    Nat → List HElem → List HElem → Nat → Nat → Nat → Nat → Nat → Nat →
    List HElem → List HElem → List HElem →
    List HElem × List HElem × List HElem × List HElem × List HElem
  | _, [], r2, _, _, _, _, _, _, acc, um1, um2 => (acc, [], r2, um1, um2)
  | _, r1, [], _, _, _, _, _, _, acc, um1, um2 => (acc, r1, [], um1, um2)
  | 0, r1, r2, _, _, _, _, _, _, acc, um1, um2 => (acc, r1, r2, um1, um2)
  | steps + 1, c1 :: r1, c2 :: r2, idx1, idx2, prev1, prev2, len1, len2, acc, um1, um2 =>
    match mgc root1 root2 c1 c2 with
    | some res0 =>
      let res := if c1.hasAttr "unstable_element" || c2.hasAttr "unstable_element"
        then res0.setAttr "unstable_element" "true" else res0
      mergeWalkF mgc root1 root2 partialMk ow steps r1 r2 (idx1 + 1) (idx2 + 1)
        idx1 idx2 len1 len2 (acc ++ [res]) um1 um2
    | none =>
      match (if idx2 > prev2 then
          mergeElToList mgc (partialMk acc) root2 c2 um1 else none) with
      | some (m, r, um1x) =>
        mergeWalkF mgc root1 root2 partialMk ow steps (c1 :: r1) r2 idx1 (idx2 + 1)
          idx1 idx2 len1 len2 (replaceFirst acc m r) um1x um2
      | none =>
        match (if idx1 > prev1 then
            mergeElToList mgc (partialMk acc) root1 c1 um2 else none) with
        | some (m, r, um2x) =>
          mergeWalkF mgc root1 root2 partialMk ow steps r1 (c2 :: r2) (idx1 + 1) idx2
            idx1 idx2 len1 len2 (replaceFirst acc m r) um1 um2x
        | none =>
          if idx1 < idx2 then
            let cc := if !ow then c1.setAttr "unstable_element" "true" else c1
            mergeWalkF mgc root1 root2 partialMk ow steps r1 (c2 :: r2) (idx1 + 1) idx2
              idx1 idx2 len1 len2 (acc ++ [cc]) (um1 ++ [cc]) um2
          else if idx1 > idx2 then
            let cc := if !ow then c2.setAttr "unstable_element" "true" else c2
            mergeWalkF mgc root1 root2 partialMk ow steps (c1 :: r1) r2 idx1 (idx2 + 1)
              idx1 idx2 len1 len2 (acc ++ [cc]) um1 (um2 ++ [cc])
          else if len1 < len2 then
            let cc := if !ow then c2.setAttr "unstable_element" "true" else c2
            mergeWalkF mgc root1 root2 partialMk ow steps (c1 :: r1) r2 idx1 (idx2 + 1)
              idx1 idx2 len1 len2 (acc ++ [cc]) um1 (um2 ++ [cc])
          else
            let cc := if !ow then c1.setAttr "unstable_element" "true" else c1
            mergeWalkF mgc root1 root2 partialMk ow steps r1 (c2 :: r2) (idx1 + 1) idx2
              idx1 idx2 len1 len2 (acc ++ [cc]) (um1 ++ [cc]) um2

/-- The first leftover loop of the children merge (template.py
lines 844-859): each remaining first-side child either merges with an
entry of the second-side backlog (replacing the skipped copy in the
result), or — when not overwriting, or when already marked
`unstable_element` — is appended marked unstable; otherwise it is
dropped.  Returns the updated result children and backlog. -/
def mergeDrain1F (mgc : HElem → HElem → HElem → HElem → Option HElem)
    (root1 : HElem) (partialMk : List HElem → HElem) (ow : Bool) :
    List HElem → List HElem → List HElem → List HElem × List HElem
  | [], acc, um2 => (acc, um2)
  | c1 :: rest, acc, um2 =>
    match mergeElToList mgc (partialMk acc) root1 c1 um2 with
    | some (m, r, um2x) =>
      mergeDrain1F mgc root1 partialMk ow rest (replaceFirst acc m r) um2x
    | none =>
      if !ow || c1.hasAttr "unstable_element" then
        mergeDrain1F mgc root1 partialMk ow rest
          (acc ++ [c1.setAttr "unstable_element" "true"]) um2
      else mergeDrain1F mgc root1 partialMk ow rest acc um2

/-- The second leftover loop of the children merge (template.py
lines 860-873): each remaining second-side child either merges with an
entry of the first-side backlog (replacing the skipped copy), or is
appended (marked unstable unless overwriting).  Returns the updated
result children and first-side backlog. -/
def mergeDrain2F (mgc : HElem → HElem → HElem → HElem → Option HElem)
    (root2 : HElem) (partialMk : List HElem → HElem) (ow : Bool) :
    List HElem → List HElem → List HElem → List HElem × List HElem
  | [], acc, um1 => (acc, um1)
  | c2 :: rest, acc, um1 =>
    match mergeElToList mgc (partialMk acc) root2 c2 um1 with
    | some (m, r, um1x) =>
      mergeDrain2F mgc root2 partialMk ow rest (replaceFirst acc m r) um1x
    | none =>
      let cc := if !ow then c2.setAttr "unstable_element" "true" else c2
      mergeDrain2F mgc root2 partialMk ow rest (acc ++ [cc]) um1

/-- HtmlTemplate._helper_combine_children (template.py lines 705-882):
the two-cursor loop, the two leftover loops, and — in overwrite mode —
the removal of first-side backlog entries that never matched and are
not marked `unstable_element`. -/
def mergeChildren (mgc : HElem → HElem → HElem → HElem → Option HElem)
    (root1 root2 : HElem) (tag : String) (attrsF : List (String × String))
    (txt : Option String) (cs1 cs2 : List HElem) (ow : Bool) : List HElem :=
  let partialMk := fun acc => HElem.mk tag attrsF txt acc
  match mergeWalkF mgc root1 root2 partialMk ow (cs1.length + cs2.length + 1)
      cs1 cs2 0 0 0 0 cs1.length cs2.length [] [] [] with
  | (acc, rem1, rem2, um1, um2) =>
    let d1 := mergeDrain1F mgc root1 partialMk ow rem1 acc um2
    let d2 := mergeDrain2F mgc root2 partialMk ow rem2 d1.1 um1
    if ow then
      d2.2.foldl (fun a x =>
        if x.hasAttr "unstable_element" then a else removeFirst a x) d2.1
    else d2.1

/-- HtmlTemplate._get_merged_tree (template.py lines 496-532): identical
trees are returned as a copy; corresponding elements (correspondence
not -1) have their attributes, text and children combined into a fresh
element with the first element's tag; non-corresponding elements give
`None`.  The fuel counts element nesting depth as in the match walk. -/
def mergeTrees : Nat → HElem → HElem → HElem → HElem → Bool → Option HElem
  | 0, _, _, _, _, _ => none
  | n + 1, root1, root2, l1, l2, ow =>
    if l1 == l2 then some l1
    else if helperInitialCompare root1 root2 l1 l2 == -1 then none
    else
      let caSet := combineAttributes l1 l2 ow
      let ct := combineText l1 l2 ow
      let attrsF := if ct.2 then setAttrL caSet "unstable_text" "true" else caSet
      let mgc := fun r1 r2 a b => mergeTrees n r1 r2 a b ow
      some (HElem.mk l1.tag attrsF ct.1
        (mergeChildren mgc root1 root2 l1.tag attrsF ct.1 l1.children l2.children ow))

/-- The merge at adequate fuel, called on whole trees (whose roots are
the trees themselves, as in `add_tree` and `get_updated_template`). -/
def mergeTreesTop (l1 l2 : HElem) (ow : Bool) : Option HElem :=
  mergeTrees (esize l1 + esize l2 + 1) l1 l2 l1 l2 ow

/-! ### Unstable xpaths
(template.py `get_unstable_xpaths` and `_get_unstable_elements_from_template_tree`,
lines 242-263) -/

/-- Path segments of the children of an element for `getpath`: a child
tagged `t` gets a positional index `t[k]` (1-based among the same-tag
siblings) exactly when the parent has two or more children with that
tag, and plain `t` otherwise. -/
def collectChildrenF (cu : HElem → String → List String) (base : String)
    (all : List HElem) : List String :=
  let rec go (before : List HElem) : List HElem → List String
    | [] => []
    | c :: rest =>
      let total := all.countP (fun x => x.tag == c.tag)
      let k := before.countP (fun x => x.tag == c.tag) + 1
      let seg := if total ≥ 2 then c.tag ++ "[" ++ natToStr k ++ "]" else c.tag
      cu c (base ++ "/" ++ seg) ++ go (before ++ [c]) rest
  go [] all

/-- Fueled preorder collection of the `getroottree().getpath` xpaths of
every element carrying one of the three instability attributes (the
query `//*[@unstable_attributes|@unstable_text|@unstable_element]`). -/
def collectUnstableF : Nat → HElem → String → List String
  | 0, _, _ => []
  | n + 1, e, path =>
    (if anyUnstableMark e then [path] else []) ++
      collectChildrenF (collectUnstableF n) path e.children

/-- HtmlTemplate.get_unstable_xpaths evaluated on a template tree
(template.py lines 247-263): xpaths, in document order, of all elements
marked unstable.  The source returns them as a set; the list here is
duplicate-free because getpath is injective on a tree. -/
def unstableXpathsOfTree (root : HElem) : List String :=
  collectUnstableF (esize root + 1) root ("/" ++ root.tag)

/-! ### Template state and its operations
(template.py `HtmlTemplate`, lines 34-264)

Every method of the class is translated as a function from the template
state (the mutable fields set in `__init__`, template.py lines 79-83)
to its new state, so that which fields a method writes is explicit. -/

/-- Mutable fields of an HtmlTemplate (template.py lines 79-83). -/
structure HtmlTemplateS where
  htmlstrings : List String := []
  trees : List HElem := []
  full_tree : Option HElem := none
  unstable_elements : Option (List HElem) := none
  unstable_xpaths : Option (List String) := none
deriving Repr

/-- The freshly constructed template `HtmlTemplate()`. -/
def HtmlTemplateS.empty : HtmlTemplateS := {}

/-- HtmlTemplate.add_tree (template.py lines 140-164): append the tree
to `_trees`; the first tree becomes `_full_tree`; a tree serializing
equal to the current full tree changes nothing else; otherwise the full
tree becomes the merge (overwrite off) and the cached unstable sets are
invalidated (`_mark_dirty`).  The `none` fallback is unreachable: the
full tree is set whenever `_trees` is nonempty. -/
def HtmlTemplateS.addTree (t : HtmlTemplateS) (tree : HElem) : HtmlTemplateS :=
  let trees := t.trees ++ [tree]
  if trees.length == 1 then
    { t with trees := trees, full_tree := some tree }
  else if t.full_tree == some tree then
    { t with trees := trees }
  else
    match t.full_tree with
    | none => { t with trees := trees }
    | some f =>
      { t with
        trees := trees
        full_tree := mergeTreesTop f tree false
        unstable_elements := none
        unstable_xpaths := none }

/-- HtmlTemplate.add_html (template.py lines 119-129) with the parse of
the html string (`_prepare_tree`, an lxml collaborator) supplied as the
prepared tree: a string already added is a no-op; otherwise the string
is recorded and its tree added. -/
def HtmlTemplateS.addHtml (t : HtmlTemplateS) (s : String) (prepared : HElem) :
    HtmlTemplateS :=
  if t.htmlstrings.contains s then t
  else
    HtmlTemplateS.addTree { t with htmlstrings := t.htmlstrings ++ [s] } prepared

/-- HtmlTemplate.matches_tree (template.py lines 195-207): evaluate the
match walk against the full tree; no field of the template is written
anywhere on this path (`_match_trees` is a classmethod that only reads,
and its backlog lists are locals).  Matching an empty template
dereferences `None` in the source, modelled by the error case; the
state is returned unchanged in both cases. -/
def HtmlTemplateS.matchesTree (t : HtmlTemplateS) (tree : HElem) :
    Except String Bool × HtmlTemplateS :=
  (match t.full_tree with
   | none => .error "AttributeError: noneType tree"
   | some f => .ok (matchTreesTop f tree).isNone, t)

/-- HtmlTemplate.matches_html (template.py lines 169-180): prepare the
string (parse supplied as a parameter) and run the tree match. -/
def HtmlTemplateS.matchesHtml (prepare : String → HElem) (t : HtmlTemplateS)
    (s : String) : Except String Bool × HtmlTemplateS :=
  t.matchesTree (prepare s)

/-- HtmlTemplate.get_updated_template (template.py lines 209-233) with
the parse supplied: a string already added returns the template itself;
otherwise a new template whose trees are the old full tree and the new
tree, and whose full tree is the overwrite-mode merge.  The new
template's `_htmlstrings` set is left empty by the source.  The `none`
case (updating an empty template) raises in the source and is modelled
as the identity; it is unreachable in this development. -/
def HtmlTemplateS.getUpdatedTemplate (t : HtmlTemplateS) (s : String)
    (prepared : HElem) : HtmlTemplateS :=
  if t.htmlstrings.contains s then t
  else
    match t.full_tree with
    | none => t
    | some f =>
      { htmlstrings := []
        trees := [f, prepared]
        full_tree := mergeTreesTop f prepared true
        unstable_elements := none
        unstable_xpaths := none }

/-- Unstable xpaths of a template (the value `get_unstable_xpaths`
computes and caches, template.py lines 247-254); empty for an empty
template. -/
def HtmlTemplateS.unstableXpaths (t : HtmlTemplateS) : List String :=
  match t.full_tree with
  | none => []
  | some f => unstableXpathsOfTree f

/-! ## Concrete inputs used by the counterexample and evaluation theorems -/

/-- First page load of the C1 failing input: a div whose text contains
the literal value separator. -/
def c1html1 : String := "<html><body><div>a||b</div></body></html>"

/-- Second page load of the C1 failing input: the same values in the
opposite order. -/
def c1html2 : String := "<html><body><div>b||a</div></body></html>"

/-- Parse of `c1html1` (after `_prepare_tree`: no cleaning applies to
this input; `document_fromstring` yields html/body/div with the div
text). -/
def c1tree1 : HElem :=
  .mk "html" [] none [.mk "body" [] none [.mk "div" [] (some "a||b") []]]

/-- Parse of `c1html2`. -/
def c1tree2 : HElem :=
  .mk "html" [] none [.mk "body" [] none [.mk "div" [] (some "b||a") []]]

/-- The `_prepare_tree` collaborator restricted to the two C1 inputs. -/
def c1prepare : String → HElem :=
  fun s => if s == c1html1 then c1tree1 else c1tree2

/-- Template after `add_html(c1html1); add_html(c1html2)`. -/
def c1template : HtmlTemplateS :=
  (HtmlTemplateS.empty.addHtml c1html1 c1tree1).addHtml c1html2 c1tree2

/-- First page of the C2 input: a paragraph whose text varies across
loads, next to a stable span. -/
def c2html1 : String := "<html><body><p>morning</p><span>hi</span></body></html>"

/-- Second page of the C2 input. -/
def c2html2 : String := "<html><body><p>evening</p><span>hi</span></body></html>"

/-- Page for the update of the C2 input: the paragraph is gone. -/
def c2html3 : String := "<html><body><span>hi</span></body></html>"

/-- Parse of `c2html1`. -/
def c2tree1 : HElem :=
  .mk "html" [] none
    [.mk "body" [] none [.mk "p" [] (some "morning") [], .mk "span" [] (some "hi") []]]

/-- Parse of `c2html2`. -/
def c2tree2 : HElem :=
  .mk "html" [] none
    [.mk "body" [] none [.mk "p" [] (some "evening") [], .mk "span" [] (some "hi") []]]

/-- Parse of `c2html3`. -/
def c2tree3 : HElem :=
  .mk "html" [] none [.mk "body" [] none [.mk "span" [] (some "hi") []]]

/-- Template built from the two C2 page loads; its paragraph is marked
`unstable_text`. -/
def c2template : HtmlTemplateS :=
  (HtmlTemplateS.empty.addHtml c2html1 c2tree1).addHtml c2html2 c2tree2

/-- Result of `get_updated_template(c2html3)` on the C2 template. -/
def c2updated : HtmlTemplateS :=
  c2template.getUpdatedTemplate c2html3 c2tree3

/-- A user ability that claims the action `act_a` in its action set but
scores it 0 (abilities that limit a user's actions are directed to
override `score_act` this way, ability.py lines 42-43 and 194). -/
def c5ability : AbilityS :=
  { name := "RestrictedAbility"
    actions := ["act_a"]
    scorePerceive := 1
    scoreNavigate := 1
    scoreAct := fun _ => 0 }

/-- A UserModel holding only `c5ability`. -/
def c5user : UserModelS := ⟨"CustomUser", [c5ability]⟩

/-- A comparator whose `match` raises, as the `try` of
`Comparer.compare` anticipates (comparator.py lines 117-128); the web
comparators parse with lxml and can raise on malformed input. -/
def boomComparator : Comparator :=
  ⟨"BoomComparator", fun _ _ => .error "boom"⟩

/-- A pipeline containing only the raising comparator. -/
def boomPipeline : List (Comparator × CompareFlag) :=
  [(boomComparator, ⟨false, false⟩)]

/-! ## Claim theorems -/

/-- Decidable equality for `Except` results (absent from the core
library), used to state and check the evaluation theorems. -/
instance {ε α : Type} [DecidableEq ε] [DecidableEq α] :
    DecidableEq (Except ε α) := fun a b =>
  match a, b with
  | .ok x, .ok y =>
    if h : x = y then isTrue (by rw [h]) else
      isFalse (fun c => h (Except.ok.injEq x y ▸ congrArg id c |> fun q => by
        cases c; rfl))
  | .ok _, .error _ => isFalse (fun c => Except.noConfusion c)
  | .error _, .ok _ => isFalse (fun c => Except.noConfusion c)
  | .error e, .error f =>
    if h : e = f then isTrue (by rw [h]) else
      isFalse (fun c => h (by cases c; rfl))

/-- C1: the claimed invariant — after a sequence of `add_html` calls the
template matches every html string added — fails on the code.  Adding
`<div>a||b</div>` and then `<div>b||a</div>` (as full documents) merges
the texts by `||`-separated value sets, which compare equal, so the text
is taken verbatim from the second document without an `unstable_text`
marker (template.py lines 688-703); the match walk then compares raw
text strings (template.py line 360) and rejects the first document.
Both strings were added, yet `matches_html` returns False for the
first (and True only for the second). -/
theorem C1_add_html_match_invariant_fails :
    c1template.htmlstrings = [c1html1, c1html2] ∧
    (HtmlTemplateS.matchesHtml c1prepare c1template c1html1).1 = Except.ok false ∧
    (HtmlTemplateS.matchesHtml c1prepare c1template c1html2).1 = Except.ok true := by
  refine ⟨rfl, ?_, ?_⟩ <;> decide

/-- C2: the claimed property of `get_updated_template` — every unstable
xpath of the original remains unstable in the update — fails on the
code.  The C2 template marks `/html/body/p` as `unstable_text`; updating
with a document that lacks the paragraph drops the unmatched child
entirely, because the overwrite-mode leftover loop and final removal
keep a first-side child only when it carries `unstable_element`
(template.py lines 851 and 877-880), ignoring `unstable_text`.  The
updated template has no unstable xpath at all, while its other claimed
half — matching the new document — holds here. -/
theorem C2_update_loses_unstable_xpath :
    c2template.unstableXpaths = ["/html/body/p"] ∧
    c2updated.unstableXpaths = [] ∧
    (c2updated.matchesTree c2tree3).1 = Except.ok true := by
  refine ⟨?_, ?_, ?_⟩ <;> decide

/-- C5: with both NAV and ACT requested, the code does return 0
immediately for an unclaimed action, but the claimed 4-tuple contract of
`score_navigate_act` fails when an ability claims the action and scores
it 0: the method returns the bare pair `(0.0, None)` (user.py line 336),
and the 4-way unpacking in `UserModel.score` (user.py line 180) raises
ValueError instead of returning `pcv * combined`. -/
theorem C5_zero_act_score_unpack_error :
    c5user.userActions.contains "act_a" = true ∧
    c5user.scoreNavigateAct ["act_a"] "act_a" = .ok (.pair 0 none) ∧
    c5user.score ⟨false, true, true⟩ ["act_a"] "act_a" =
      .error "ValueError: not enough values to unpack (expected 4, got 2)" := by
  exact ⟨rfl, rfl, rfl⟩

/-- C9: `matches_html` never mutates the template.  The translation
maps every field assignment of the source to a state update; the match
path (`matches_html`, `matches_tree`, `_match_trees`, template.py
lines 169-207 and 293-494) contains none — the only mutation in the
walk is `del` on its local backlog lists — so the template state after
the call is the state before it, whatever the prepare collaborator, the
template and the input string. -/
theorem C9_matches_html_never_mutates (prepare : String → HElem)
    (t : HtmlTemplateS) (s : String) :
    (HtmlTemplateS.matchesHtml prepare t s).2 = t := rfl

/-! ### Shared list helper lemmas -/

/-- A list whose `contains` test is false does not hold the element. -/
theorem containsFalseNotMem {α} [BEq α] [LawfulBEq α] (l : List α) (a : α)
    (h : l.contains a = false) : a ∉ l := by
  intro hm
  simp only [List.contains] at h
  rw [List.elem_iff.mpr hm] at h
  cases h

/-- Membership makes the `contains` test true. -/
theorem memContainsTrue {α} [BEq α] [LawfulBEq α] (l : List α) (a : α)
    (hm : a ∈ l) : l.contains a = true := by
  simp only [List.contains]
  exact List.elem_iff.mpr hm

/-- Key search fails on an association list whose key column does not
hold the key. -/
theorem findKeyNone {α β} [BEq α] [LawfulBEq α] (l : List (α × β)) (u : α)
    (h : (l.map Prod.fst).contains u = false) :
    l.find? (fun p => p.1 == u) = none := by
  induction l with
  | nil => rfl
  | cons x t ih =>
    rw [List.find?_cons]
    have hnm := containsFalseNotMem _ _ h
    have hx : (x.1 == u) = false := by
      cases hxx : x.1 == u
      · rfl
      · exact absurd (by simp [beq_iff_eq.mp hxx] : u ∈ (x :: t).map Prod.fst) hnm
    have ht : ((t.map Prod.fst).contains u) = false := by
      cases htt : (t.map Prod.fst).contains u
      · rfl
      · have : u ∈ (x :: t).map Prod.fst := by
          have hmem : u ∈ t.map Prod.fst :=
            List.elem_iff.mp (by simpa only [List.contains] using htt)
          simp [hmem]
        exact absurd this hnm
    simp [hx, ih ht]

/-- The default pipeline's state-data equality is reflexive: the
StrictComparator compares the squashed representation with itself. -/
theorem stateDataEqDefaultB_refl (d : String) : stateDataEqDefaultB d d = true := by
  simp [stateDataEqDefaultB, stateDataEq, Comparer.compare, compareAux,
    defaultPipeline, strictComparator, lastComparatorId, List.getLast?]

/-- An error result of the compare loop comes from a pipeline entry
whose comparator raised, and carries that comparator's identity in the
message (comparator.py lines 125-128). -/
theorem compareAuxErrorFromComparator (last sd1 sd2 e : String) :
    ∀ pl : List (Comparator × CompareFlag),
      compareAux last sd1 sd2 pl = .error e →
      ∃ c flags, (c, flags) ∈ pl ∧
        ∃ e0, c.matchFn sd1 sd2 = .error e0 ∧ e = comparatorErrMsg c.id e0 := by
  intro pl
  induction pl with
  | nil => intro h; exact absurd h (by simp [compareAux])
  | cons x rest ih =>
    intro h
    obtain ⟨c, flags⟩ := x
    rw [compareAux] at h
    cases hm : c.matchFn sd1 sd2 with
    | error e0 =>
      rw [hm] at h
      dsimp only at h
      injection h with he
      exact ⟨c, flags, List.mem_cons_self _ _, e0, hm, he.symm⟩
    | ok r =>
      rw [hm] at h
      dsimp only at h
      split at h
      · exact absurd h (by simp)
      · split at h
        · exact absurd h (by simp)
        · obtain ⟨c2, f2, hmem, he⟩ := ih h
          exact ⟨c2, f2, List.mem_cons_of_mem _ hmem, he⟩

/-- Looking up an adjacency entry immediately after writing it returns
the written edge set. -/
theorem edgesOfSetEdgesOf (g : GraphS) (sid : Nat) (es : List EdgeT) :
    (g.setEdgesOf sid es).edgesOf sid = es := by
  unfold GraphS.setEdgesOf GraphS.edgesOf
  cases hc : (g.edges.map Prod.fst).contains sid with
  | false =>
    simp only [hc, Bool.false_eq_true, if_false]
    rw [List.find?_append, findKeyNone _ _ hc]
    simp [List.find?]
  | true =>
    simp only [hc, if_true]
    have key : ∀ (l : List (Nat × List EdgeT)), (l.map Prod.fst).contains sid = true →
        (l.map (fun p => if p.1 == sid then (sid, es) else p)).find?
          (fun p => p.1 == sid) = some (sid, es) := by
      intro l
      induction l with
      | nil => intro hh; simp [List.contains, List.elem] at hh
      | cons x t ih =>
        intro hh
        by_cases hx : x.1 = sid
        · simp [hx, List.find?]
        · have hxb : (x.1 == sid) = false := by simp [hx]
          have ht : (t.map Prod.fst).contains sid = true := by
            cases htt : (t.map Prod.fst).contains sid
            · exfalso
              have hmem : sid ∈ (x :: t).map Prod.fst :=
                List.elem_iff.mp (by simpa only [List.contains] using hh)
              rw [List.map_cons] at hmem
              rcases List.mem_cons.mp hmem with h1 | h1
              · exact hx h1.symm
              · exact containsFalseNotMem _ _ htt h1
            · rfl
          rw [List.map_cons, if_neg (by rw [hxb]; exact Bool.false_ne_true),
            List.find?_cons]
          simp only [hxb]
          exact ih ht
    rw [key g.edges hc]

/-! ### C3: duplicate labeled edges -/

/-- C3 counterexample: after two `add_edge` calls with the identical
`(src, dst, element, action)` tuple, the outgoing-edge collection of
the source holds a single edge, not two — `Edge.__eq__`/`__hash__`
compare the tuple and the Python `set` deduplicates the second
insertion (graph/graph.py line 142, graph/edge.py lines 55-66). -/
theorem C3_duplicate_edge_counterexample :
    (((GraphS.empty.addEdge 0 1 "el" "act").2.addEdge 0 1 "el" "act").2.edgesOf 0)
      = [⟨0, 1, "el", "act"⟩] ∧
    (((GraphS.empty.addEdge 0 1 "el" "act").2.addEdge 0 1 "el" "act").2.edgesOf 0).length
      ≠ 2 := by
  exact ⟨rfl, by decide⟩

/-- C3 amended: `add_edge` is a multigraph insertion only across
distinct labels; a second call with the exact same tuple is absorbed by
the edge set.  If the labeled edge is not yet present, the first call
inserts exactly one copy and the second call leaves the collection
unchanged. -/
theorem C3_add_edge_dedup (g : GraphS) (s1 s2 : Nat) (el act : String)
    (h : (g.edgesOf s1).contains ⟨s1, s2, el, act⟩ = false) :
    ((((g.addEdge s1 s2 el act).2.addEdge s1 s2 el act).2.edgesOf s1) =
      ((g.addEdge s1 s2 el act).2.edgesOf s1)) ∧
    ((g.addEdge s1 s2 el act).2.edgesOf s1).count ⟨s1, s2, el, act⟩ = 1 := by
  have hstep : ∀ gg : GraphS, (gg.addEdge s1 s2 el act).2.edgesOf s1 =
      setInsert (gg.edgesOf s1) ⟨s1, s2, el, act⟩ := by
    intro gg
    rw [show (gg.addEdge s1 s2 el act).2 =
      gg.setEdgesOf s1 (setInsert (gg.edgesOf s1) ⟨s1, s2, el, act⟩) from rfl]
    exact edgesOfSetEdgesOf gg s1 _
  have h1 : (g.addEdge s1 s2 el act).2.edgesOf s1 =
      g.edgesOf s1 ++ [⟨s1, s2, el, act⟩] := by
    rw [hstep g]
    unfold setInsert
    rw [if_neg (by rw [h]; exact Bool.false_ne_true)]
  constructor
  · rw [hstep ((g.addEdge s1 s2 el act).2), h1]
    unfold setInsert
    rw [if_pos (memContainsTrue _ _
      (List.mem_append_right _ (List.mem_singleton.mpr rfl)))]
  · rw [h1, List.count_append]
    have hz : (g.edgesOf s1).count ⟨s1, s2, el, act⟩ = 0 :=
      List.count_eq_zero.mpr (containsFalseNotMem _ _ h)
    simp [hz, List.count_singleton]

/-- C3 witness: the amended statement applied on the empty graph. -/
theorem C3_add_edge_dedup_witness :
    ((((GraphS.empty.addEdge 0 1 "el" "act").2.addEdge 0 1 "el" "act").2.edgesOf 0) =
      ((GraphS.empty.addEdge 0 1 "el" "act").2.edgesOf 0)) ∧
    ((GraphS.empty.addEdge 0 1 "el" "act").2.edgesOf 0).count ⟨0, 1, "el", "act"⟩ = 1 :=
  C3_add_edge_dedup GraphS.empty 0 1 "el" "act" (by decide)

/-! ### C4: edge-metrics update discipline -/

/-- C4 counterexample: the `contrast_ratio` setter is not monotone-best
— setting 5 and then 2 stores 2, overwriting a strictly better value
(web/accessibility/edge.py line 67 assigns unconditionally). -/
theorem C4_contrast_overwrite_counterexample :
    ((({} : AccEdgeMetrics).setContrast 5).setContrast 2).contrast_ratio = some 2 ∧
    (2 : ℚ) < 5 := by
  exact ⟨rfl, by norm_num⟩

/-- C4 amended: within one EdgeMetrics object the base score setters
store the maximum of old and new value and `act_time`/`nav_dist` store
the minimum, but `contrast_ratio` and `size` overwrite unconditionally;
and `add_data_for_user` replaces the whole stored object for a user
exactly when the new `ability_score` is strictly greater (so only
`ability_score` is monotone across those calls — other fields follow
whatever object wins). -/
theorem C4_metrics_update_rules :
    (∀ (m : AccEdgeMetrics) (v o : ℚ), m.ability_score = some o →
      (m.setAbility v).ability_score = some (max o v)) ∧
    (∀ (m : AccEdgeMetrics) (v o : ℚ), m.pcv_score = some o →
      (m.setPcv v).pcv_score = some (max o v)) ∧
    (∀ (m : AccEdgeMetrics) (v o : ℚ), m.nav_score = some o →
      (m.setNav v).nav_score = some (max o v)) ∧
    (∀ (m : AccEdgeMetrics) (v o : ℚ), m.act_score = some o →
      (m.setAct v).act_score = some (max o v)) ∧
    (∀ (m : AccEdgeMetrics) (v o : ℚ), m.act_time = some o →
      (m.setActTime v).act_time = some (min o v)) ∧
    (∀ (m : AccEdgeMetrics) (v o : ℚ), m.nav_dist = some o →
      (m.setNavDist v).nav_dist = some (min o v)) ∧
    (∀ (m : AccEdgeMetrics) (v : ℚ), (m.setContrast v).contrast_ratio = some v) ∧
    (∀ (m : AccEdgeMetrics) (v : Int × Int), (m.setSize v).size = some v) ∧
    (∀ (e : EdgeM) (u : String) (em : AccEdgeMetrics),
      e.userMetrics.find? (fun p => p.1 == u) = none →
      e.addDataForUser u em = .ok ⟨e.userMetrics ++ [(u, em)]⟩) ∧
    (∀ (e : EdgeM) (u u2 : String) (em old : AccEdgeMetrics) (a b : ℚ),
      e.userMetrics.find? (fun p => p.1 == u) = some (u2, old) →
      em.ability_score = some a → old.ability_score = some b →
      (a ≤ b → e.addDataForUser u em = .ok e) ∧
      (b < a → e.addDataForUser u em =
        .ok ⟨e.userMetrics.map (fun p => if p.1 == u then (u, em) else p)⟩)) := by
  refine ⟨?_, ?_, ?_, ?_, ?_, ?_, ?_, ?_, ?_, ?_⟩
  · intro m v o hm
    simp only [AccEdgeMetrics.setAbility, hm]
    rcases lt_or_ge o v with hlt | hge
    · rw [if_pos hlt, max_eq_right hlt.le]
    · rw [if_neg (not_lt.mpr hge), max_eq_left hge]; exact hm
  · intro m v o hm
    simp only [AccEdgeMetrics.setPcv, hm]
    rcases lt_or_ge o v with hlt | hge
    · rw [if_pos hlt, max_eq_right hlt.le]
    · rw [if_neg (not_lt.mpr hge), max_eq_left hge]; exact hm
  · intro m v o hm
    simp only [AccEdgeMetrics.setNav, hm]
    rcases lt_or_ge o v with hlt | hge
    · rw [if_pos hlt, max_eq_right hlt.le]
    · rw [if_neg (not_lt.mpr hge), max_eq_left hge]; exact hm
  · intro m v o hm
    simp only [AccEdgeMetrics.setAct, hm]
    rcases lt_or_ge o v with hlt | hge
    · rw [if_pos hlt, max_eq_right hlt.le]
    · rw [if_neg (not_lt.mpr hge), max_eq_left hge]; exact hm
  · intro m v o hm
    simp only [AccEdgeMetrics.setActTime, hm]
    rcases lt_or_ge v o with hlt | hge
    · rw [if_pos hlt, min_eq_right hlt.le]
    · rw [if_neg (not_lt.mpr hge), min_eq_left hge]; exact hm
  · intro m v o hm
    simp only [AccEdgeMetrics.setNavDist, hm]
    rcases lt_or_ge v o with hlt | hge
    · rw [if_pos hlt, min_eq_right hlt.le]
    · rw [if_neg (not_lt.mpr hge), min_eq_left hge]; exact hm
  · intro m v; rfl
  · intro m v; rfl
  · intro e u em hfind
    simp [EdgeM.addDataForUser, hfind]
  · intro e u u2 em old a b hfind hema hold
    constructor
    · intro hle
      simp [EdgeM.addDataForUser, hfind, hema, hold, not_lt.mpr hle]
    · intro hlt
      simp [EdgeM.addDataForUser, hfind, hema, hold, hlt]

/-- C4 witness: the amended rules applied at concrete metric values. -/
theorem C4_metrics_update_rules_witness :
    ((({ ability_score := some 1 } : AccEdgeMetrics).setAbility 2).ability_score
      = some (max 1 2)) ∧
    ((({ pcv_score := some 1 } : AccEdgeMetrics).setPcv 2).pcv_score
      = some (max 1 2)) ∧
    ((({ nav_score := some 1 } : AccEdgeMetrics).setNav 2).nav_score
      = some (max 1 2)) ∧
    ((({ act_score := some 1 } : AccEdgeMetrics).setAct 2).act_score
      = some (max 1 2)) ∧
    ((({ act_time := some 3 } : AccEdgeMetrics).setActTime 2).act_time
      = some (min 3 2)) ∧
    ((({ nav_dist := some 3 } : AccEdgeMetrics).setNavDist 2).nav_dist
      = some (min 3 2)) ∧
    ((({} : AccEdgeMetrics).setContrast 7).contrast_ratio = some 7) ∧
    ((({} : AccEdgeMetrics).setSize (3, 4)).size = some (3, 4)) ∧
    ((({} : EdgeM).addDataForUser "u" { ability_score := some 1 }) =
      .ok ⟨[("u", { ability_score := some 1 })]⟩) ∧
    (((⟨[("u", { ability_score := some 2 })]⟩ : EdgeM).addDataForUser "u"
        { ability_score := some 1 }) = .ok ⟨[("u", { ability_score := some 2 })]⟩) := by
  refine ⟨C4_metrics_update_rules.1 _ 2 1 rfl,
    C4_metrics_update_rules.2.1 _ 2 1 rfl,
    C4_metrics_update_rules.2.2.1 _ 2 1 rfl,
    C4_metrics_update_rules.2.2.2.1 _ 2 1 rfl,
    C4_metrics_update_rules.2.2.2.2.1 _ 2 3 rfl,
    C4_metrics_update_rules.2.2.2.2.2.1 _ 2 3 rfl,
    C4_metrics_update_rules.2.2.2.2.2.2.1 _ 7,
    C4_metrics_update_rules.2.2.2.2.2.2.2.1 _ (3, 4),
    C4_metrics_update_rules.2.2.2.2.2.2.2.2.1 _ "u" _ rfl, ?_⟩
  exact (C4_metrics_update_rules.2.2.2.2.2.2.2.2.2
    (⟨[("u", { ability_score := some 2 })]⟩ : EdgeM) "u" "u"
    { ability_score := some 1 } { ability_score := some 2 } 1 2 rfl rfl rfl).1
    (by norm_num)

/-! ### C6: uncaptured build data during simulated re-crawl -/

/-- C6 counterexample: an edge whose build data was never captured is
not rejected — the crawl still scores it, and when the score is
positive the crawl user's metrics are attached to the edge; only an
error message is logged (access.py lines 301-309, controller.py
lines 206-213). -/
theorem C6_uncaptured_edge_metrics_attached :
    (crawlGraphEdgeStep "VizKeyUser" 1 {} false).1 = [uncapturedLogMsg] ∧
    (crawlGraphEdgeStep "VizKeyUser" 1 {} false).2 =
      .ok ⟨[("VizKeyUser",
        { ability_score := some 1, buildCaptured := some false })]⟩ ∧
    (EdgeM.mk [("VizKeyUser",
      { ability_score := some 1, buildCaptured := some false })]).supportsUser
        "VizKeyUser" = true := by
  exact ⟨rfl, rfl, rfl⟩

/-- C6 amended: an uncaptured edge produces exactly one error log
message and the run continues; the crawl user's metrics are attached
whenever the computed ability score is positive (captured or not), and
never when it is zero or below. -/
theorem C6_simulate_uncaptured_behavior (user : String) (score : ℚ) (e : EdgeM)
    (captured : Bool)
    (hAbsent : e.userMetrics.find? (fun p => p.1 == user) = none) :
    ((crawlGraphEdgeStep user score e captured).1 =
      if captured then [] else [uncapturedLogMsg]) ∧
    (0 < score → (crawlGraphEdgeStep user score e captured).2 =
      .ok ⟨e.userMetrics ++ [(user,
        { ability_score := some score, buildCaptured := some captured })]⟩) ∧
    (score ≤ 0 → (crawlGraphEdgeStep user score e captured).2 = .ok e) := by
  refine ⟨?_, ?_, ?_⟩
  · cases captured <;>
      · simp only [crawlGraphEdgeStep, simulateActionOnElement, AccEdgeMetrics.setAbility]
        split <;> rfl
  · intro hpos
    simp [crawlGraphEdgeStep, simulateActionOnElement, AccEdgeMetrics.setAbility,
      hpos, EdgeM.addDataForUser, hAbsent]
  · intro hle
    simp [crawlGraphEdgeStep, simulateActionOnElement, AccEdgeMetrics.setAbility,
      not_lt.mpr hle]

/-- C6 witness: the amended statement on a concrete uncaptured edge
with a positive crawl-user score. -/
theorem C6_simulate_uncaptured_witness :
    ((crawlGraphEdgeStep "VizKeyUser" 1 {} false).1 =
      if false then [] else [uncapturedLogMsg]) ∧
    (crawlGraphEdgeStep "VizKeyUser" 1 {} false).2 =
      .ok ⟨[("VizKeyUser",
        { ability_score := some 1, buildCaptured := some false })]⟩ := by
  have h := C6_simulate_uncaptured_behavior "VizKeyUser" 1 {} false rfl
  exact ⟨h.1, h.2.1 (by norm_num)⟩

/-! ### C7: comparator failure during state comparison -/

/-- C7 counterexample: when a comparator raises, `Comparer.compare`
raises an exception naming the comparator, and `StateData.__eq__`
(graph/state.py lines 175-178) passes this exception through — the
result is not the "different" verdict `False`. -/
theorem C7_comparator_error_counterexample :
    stateDataEq boomPipeline "a" "b" =
      .error (comparatorErrMsg "BoomComparator" "boom") ∧
    stateDataEq boomPipeline "a" "b" ≠ .ok (some false) := by
  exact ⟨rfl, by decide⟩

/-- C7 amended: a raising comparator aborts the comparison with an
exception carrying the failing comparator's identity, and the caller of
state-data equality receives that exception — the states are not
treated as different. -/
theorem C7_comparator_error_abort (pipeline : List (Comparator × CompareFlag))
    (rep1 rep2 e : String)
    (h : Comparer.compare pipeline rep1 rep2 = .error e) :
    (∃ c flags, (c, flags) ∈ pipeline ∧
      ∃ e0, c.matchFn rep1 rep2 = .error e0 ∧ e = comparatorErrMsg c.id e0) ∧
    stateDataEq pipeline rep1 rep2 = .error e := by
  exact ⟨compareAuxErrorFromComparator _ rep1 rep2 e pipeline h, h⟩

/-- C7 witness: the amended statement at the concrete raising
pipeline. -/
theorem C7_comparator_error_abort_witness :
    (∃ c flags, (c, flags) ∈ boomPipeline ∧
      ∃ e0, c.matchFn "a" "b" = .error e0 ∧
        comparatorErrMsg "BoomComparator" "boom" = comparatorErrMsg c.id e0) ∧
    stateDataEq boomPipeline "a" "b" =
      .error (comparatorErrMsg "BoomComparator" "boom") :=
  C7_comparator_error_abort boomPipeline "a" "b" _ rfl

/-! ### C8: idempotent state insertion -/

/-- C8: adding the same state data twice returns the same state (same
id) both times, and the second call reports `inserted = false`: the
second `add_state` finds the state inserted by the first through the
default pipeline (strict string comparison of the squashed
representation is reflexive). -/
theorem C8_add_state_idempotent (g : GraphS) (d : String) :
    ((g.addState d).2.2.addState d).2.1 = (g.addState d).2.1 ∧
    ((g.addState d).2.2.addState d).1 = false := by
  unfold GraphS.addState
  cases hf : g.findStateByData d with
  | some s => simp [hf]
  | none =>
    have h2 : GraphS.findStateByData
        { states := g.states ++ [⟨g.nextId, d, []⟩]
          edges := g.edges
          startState := match g.startState with
            | none => some g.nextId
            | some i => some i
          nextId := g.nextId + 1 } d = some ⟨g.nextId, d, []⟩ := by
      unfold GraphS.findStateByData at hf ⊢
      rw [List.find?_append, hf]
      simp [List.find?, stateDataEqDefaultB_refl d]
    simp [hf, h2]

/-! ### C10: write-once user paths -/

/-- C10: the per-user path on a state is write-once — once the first
`set_user_path` for a user has stored a path, any number of later calls
for the same user (with any paths, shorter ones included) leave the
stored path unchanged (graph/state.py lines 88-92 guard the write with
`not in self.user_paths`). -/
theorem C10_set_user_path_write_once (s : StateS) (u : String) (p : List Nat)
    (h : (s.userPaths.map Prod.fst).contains u = false)
    (later : List (List Nat)) :
    (later.foldl (fun st q => st.setUserPath u q) (s.setUserPath u p)).getUserPath u
      = some p := by
  have h1 : (s.setUserPath u p).userPaths = s.userPaths ++ [(u, p)] := by
    unfold StateS.setUserPath
    rw [if_neg (by rw [h]; exact Bool.false_ne_true)]
  have hc : ((s.setUserPath u p).userPaths.map Prod.fst).contains u = true := by
    rw [h1, List.map_append]
    exact memContainsTrue _ _ (List.mem_append_right _ (by simp))
  have hfold : ∀ (ls : List (List Nat)) (st : StateS),
      (st.userPaths.map Prod.fst).contains u = true →
      ls.foldl (fun st q => st.setUserPath u q) st = st := by
    intro ls
    induction ls with
    | nil => intro st _; rfl
    | cons q t ih =>
      intro st hst
      have hid : st.setUserPath u q = st := by
        unfold StateS.setUserPath
        rw [if_pos hst]
      rw [List.foldl_cons, hid]
      exact ih st hst
  rw [hfold later _ hc]
  unfold StateS.getUserPath
  rw [h1, List.find?_append, findKeyNone _ _ h]
  simp [List.find?]

/-- C10 witness: a state with no recorded paths keeps the first path
stored for the user across two later shorter-path calls. -/
theorem C10_set_user_path_write_once_witness :
    (([[], [5]] : List (List Nat)).foldl
      (fun st q => st.setUserPath "VizKeyUser" q)
      ((⟨7, "dom", []⟩ : StateS).setUserPath "VizKeyUser" [1, 2])).getUserPath
        "VizKeyUser" = some [1, 2] :=
  C10_set_user_path_write_once ⟨7, "dom", []⟩ "VizKeyUser" [1, 2] rfl [[], [5]]

end Demodocus
